import Mathlib

/-!
Verification of the AI tutoring orchestration service (ai-service package):
shallow embedding of its cache-key derivation, retry/backoff controller,
cache-store wrapper, response structuring and work distribution, with
theorems checking the natural-language specification against the code.

Conventions: Python dicts built from duplicate-free key lists are embedded
as ordered association lists; machine integers are `Nat`; fallible code
returns `Option`/`Except`; external library functions with no source in the
repository (the `re` regex engine, `hashlib.md5`, `json.dumps`, floating
point `round`) are taken as explicit function parameters of the embedding,
since only their determinism matters to the claims.
-/

namespace AITutor

/-! ## Work distributor (test_generation_service._distribute_questions)

Python source:
```
base_count = total_count // len(question_types)
remainder = total_count % len(question_types)
for i, q_type in enumerate(question_types):
    distribution[q_type] = base_count + (1 if i < remainder else 0)
```
The produced dict (keys inserted in input order, inputs duplicate-free) is
embedded as the ordered association list below. -/
def distributeQuestions (total_count : Nat) (question_types : List String) :
    List (String × Nat) :=
  let base_count := total_count / question_types.length
  let remainder := total_count % question_types.length
  question_types.enum.map (fun p => (p.2, base_count + if p.1 < remainder then 1 else 0))

/-- The multiset of per-category counts, as a function of the total and the
number of categories only (the counts do not depend on the labels). -/
def distValues (total n : Nat) : List Nat :=
  (List.range n).map (fun i => total / n + if i < total % n then 1 else 0)

/-! ## Cache-key derivation

`explanation_service._generate_cache_key` normalizes (lower-case + strip)
the string fields, serializes them with `json.dumps(..., sort_keys=True)`,
hashes with md5 and prefixes `explanation:`.
`test_generation_service._get_cache_key` concatenates the raw request
fields (no normalization) under the `test:` prefix. -/

/-- Python `str.lower()` (ASCII; `Char.toLower` only maps basic latin). -/
def pyLower (s : String) : String := ⟨s.data.map Char.toLower⟩

/-- Python `str.strip()`: drop whitespace from both ends. -/
def pyStrip (s : String) : String :=
  ⟨((s.data.dropWhile Char.isWhitespace).reverse.dropWhile Char.isWhitespace).reverse⟩

/-- `app.models.requests.ExplanationRequest`, the fields used by the
explanation cache key (`previous_explanations` is not used by it). -/
structure ExplanationRequest where
  topic : String
  subject : String
  student_level : Nat
  context : Option String

/-- The normalized `key_data` dict of `_generate_cache_key`, as the tuple of
its values: `topic.lower().strip()`, `subject.lower().strip()`,
`student_level`, and `context.lower().strip()` or `""` when absent. -/
def normalizedKeyData (r : ExplanationRequest) : String × String × Nat × String :=
  (pyStrip (pyLower r.topic), pyStrip (pyLower r.subject), r.student_level,
    match r.context with
    | some c => pyStrip (pyLower c)
    | none => "")

/-- `_generate_cache_key`: `"explanation:" + md5(json.dumps(key_data,
sort_keys=True)).hexdigest()`. The deterministic composition of the
canonical JSON serialization and the md5 hex digest (both external library
code) is the function parameter `md5json`. -/
def generateCacheKey (md5json : String × String × Nat × String → String)
    (r : ExplanationRequest) : String :=
  "explanation:" ++ md5json (normalizedKeyData r)

/-- `app.models.requests.TestGenerationRequest`. -/
structure TestGenerationRequest where
  subject : String
  topics : List String
  difficulty : Nat
  question_count : Nat
  question_types : List String
  student_level : Option Nat

/-- Python `sorted` on strings: stable sort by lexicographic order. -/
def sortedStrings (l : List String) : List String :=
  l.insertionSort (fun a b => a ≤ b)

/-- `test_generation_service._get_cache_key`: raw (unnormalized) fields
joined as `test:{subject}:{sorted topics}:{difficulty}:{count}:{sorted types}`. -/
def getCacheKey (r : TestGenerationRequest) : String :=
  let topics_str := String.intercalate "_" (sortedStrings r.topics)
  let types_str := String.intercalate "_" (sortedStrings r.question_types)
  "test:" ++ r.subject ++ ":" ++ topics_str ++ ":" ++ toString r.difficulty
    ++ ":" ++ toString r.question_count ++ ":" ++ types_str

/-! ## Retry controller (openai_client.create_completion)

The endpoint (the OpenAI SDK call) is an external collaborator, embedded as
a function from the 0-indexed attempt number to the outcome of that call. -/

/-- Outcome of one `self.client.chat.completions.create(...)` call. -/
inductive ApiOutcome where
  | success (content : String)
  | rateLimited
  | connectionFailed
  | apiFailure (status : Nat)
  | otherOpenAIFailure
  | unexpectedFailure
deriving DecidableEq

/-- The exception with which `create_completion` terminates.
`retriesExhausted` is the distinct
`OpenAIError("Failed to create completion after all retries")`
raised after the `for` loop falls through. -/
inductive CompletionError where
  | rateLimitError
  | apiConnectionError
  | apiError (status : Nat)
  | openAIError
  | unexpectedError
  | retriesExhausted
deriving DecidableEq

deriving instance DecidableEq for Except

/-- One run of `create_completion`: the returned value or raised error, the
number of endpoint invocations, and the list of `time.sleep` durations in
order. -/
structure RunResult where
  outcome : Except CompletionError String
  attempts : Nat
  sleeps : List Nat
deriving DecidableEq

/-- The `for attempt in range(max_retries)` loop of `create_completion`,
with `remaining` iterations left and `attempt` the current 0-indexed
attempt. Each failure branch retries (sleeping `retry_delay * 2 ** attempt`)
exactly under the source's condition, else re-raises its classified error;
falling out of the loop raises the distinct retries-exhausted error. -/
def createCompletionAux (endpoint : Nat → ApiOutcome) (max_retries retry_delay : Nat) :
    Nat → Nat → RunResult
  | _, 0 => ⟨.error .retriesExhausted, 0, []⟩
  | attempt, remaining + 1 =>
    match endpoint attempt with
    | .success c => ⟨.ok c, 1, []⟩
    | .rateLimited =>
      if attempt < max_retries - 1 then
        let rest := createCompletionAux endpoint max_retries retry_delay (attempt + 1) remaining
        ⟨rest.outcome, rest.attempts + 1, (retry_delay * 2 ^ attempt) :: rest.sleeps⟩
      else ⟨.error .rateLimitError, 1, []⟩
    | .connectionFailed =>
      if attempt < max_retries - 1 then
        let rest := createCompletionAux endpoint max_retries retry_delay (attempt + 1) remaining
        ⟨rest.outcome, rest.attempts + 1, (retry_delay * 2 ^ attempt) :: rest.sleeps⟩
      else ⟨.error .apiConnectionError, 1, []⟩
    | .apiFailure status =>
      if attempt < max_retries - 1 ∧ 500 ≤ status then
        let rest := createCompletionAux endpoint max_retries retry_delay (attempt + 1) remaining
        ⟨rest.outcome, rest.attempts + 1, (retry_delay * 2 ^ attempt) :: rest.sleeps⟩
      else ⟨.error (.apiError status), 1, []⟩
    | .otherOpenAIFailure => ⟨.error .openAIError, 1, []⟩
    | .unexpectedFailure => ⟨.error .unexpectedError, 1, []⟩

/-- `create_completion(...)` itself: run the loop from attempt 0 with
`max_retries` iterations. -/
def createCompletion (endpoint : Nat → ApiOutcome) (max_retries retry_delay : Nat) :
    RunResult :=
  createCompletionAux endpoint max_retries retry_delay 0 max_retries

/-- Outcomes the source treats as retryable (while attempts remain):
rate limit, connection failure, and 5xx API errors. -/
def retryableOutcome : ApiOutcome → Bool
  | .rateLimited => true
  | .connectionFailed => true
  | .apiFailure status => 500 ≤ status
  | _ => false

/-- The classified error each failing endpoint outcome is re-raised as.
(`success` never reaches a `raise`; the value is irrelevant and arbitrary.) -/
def classifyFailure : ApiOutcome → CompletionError
  | .rateLimited => .rateLimitError
  | .connectionFailed => .apiConnectionError
  | .apiFailure status => .apiError status
  | .otherOpenAIFailure => .openAIError
  | .unexpectedFailure => .unexpectedError
  | .success _ => .retriesExhausted

/-! ## Cache store wrapper (redis_client.RedisClient)

The underlying `redis.asyncio` connection is an external collaborator; each
raw operation either returns a value or raises. `self.redis` is `None` when
`connect()` failed. `json.loads` may raise (absorbed by the wrapper), so it
is embedded as an `Option`-returning parameter; `json.dumps` as a total
function parameter. -/

/-- Result of a raw operation on the underlying store: a value, or a raised
exception. -/
inductive RedisOp (α : Type) where
  | ok (a : α)
  | raised
deriving DecidableEq

/-- The live connection: raw `get` (None or a string), `setex`, `delete`. -/
structure RedisConn where
  getRaw : String → RedisOp (Option String)
  setexRaw : String → Nat → String → RedisOp Unit
  delRaw : String → RedisOp Nat

/-- `RedisClient`: optional connection plus the configured default TTL. -/
structure RedisClientState where
  redis : Option RedisConn
  cache_ttl : Nat

/-- All raw operations of a connection raise (store unreachable mid-call). -/
def RedisConn.allRaise (conn : RedisConn) : Prop :=
  (∀ k, conn.getRaw k = .raised)
  ∧ (∀ k t v, conn.setexRaw k t v = .raised)
  ∧ (∀ k, conn.delRaw k = .raised)

/-- `RedisClient.get`: `None` without a connection; `json.loads` of the raw
value when present and truthy; `None` on a falsy value, on a parse failure,
or when the raw operation raises. -/
def RedisClientState.get {α : Type} (c : RedisClientState)
    (jsonLoads : String → Option α) (key : String) : Option α :=
  match c.redis with
  | none => none
  | some conn =>
    match conn.getRaw key with
    | .raised => none
    | .ok none => none
    | .ok (some v) => if v = "" then none else jsonLoads v

/-- `RedisClient.set`: `False` without a connection; `setex` with the given
or default TTL and the serialized value, `True` on success, `False` when the
raw operation raises. -/
def RedisClientState.set {α : Type} (c : RedisClientState) (jsonDumps : α → String)
    (key : String) (value : α) (ttl : Option Nat) : Bool :=
  match c.redis with
  | none => false
  | some conn =>
    match conn.setexRaw key (ttl.getD c.cache_ttl) (jsonDumps value) with
    | .raised => false
    | .ok _ => true

/-- `RedisClient.delete`: `False` without a connection; `True` after the raw
delete, `False` when it raises. -/
def RedisClientState.del (c : RedisClientState) (key : String) : Bool :=
  match c.redis with
  | none => false
  | some conn =>
    match conn.delRaw key with
    | .raised => false
    | .ok _ => true

/-! ## Response structurer and explanation orchestrator
(explanation_service.ExplanationService)

The `re` regex engine is external library code: each `re.finditer`/`re.search`
scan is embedded as a function parameter returning the captured groups of
its matches in discovery order. Python float `round(word_count / 200)` is
likewise a function parameter. -/

/-- `app.models.responses.Example`. -/
structure Example where
  title : String
  content : String
deriving DecidableEq

/-- `app.models.responses.Explanation`. -/
structure Explanation where
  content : String
  examples : List Example
  related_topics : List String
  difficulty : Nat
  estimated_read_time : Nat
deriving DecidableEq

/-- Python `needle in haystack` substring test on char lists. -/
def containsSub (needle : List Char) : List Char → Bool
  | [] => needle.isEmpty
  | c :: rest => needle.isPrefixOf (c :: rest) || containsSub needle rest

/-- `"example" in content.lower()`. -/
def containsWordExample (content : String) : Bool :=
  containsSub "example".data (pyLower content).data

/-- `_extract_examples`: collect the `(group(1).strip(), group(2).strip())`
pairs of both regex scans in order; if none matched and the word "example"
occurs, emit exactly one generic placeholder; cap the output at 3. -/
def extractExamples (m1 m2 : String → List (String × String))
    (content : String) : List Example :=
  let structured := (m1 content ++ m2 content).map (fun p => ⟨pyStrip p.1, pyStrip p.2⟩)
  let examples := if structured.isEmpty && containsWordExample content
    then [⟨"Example", "See explanation above for examples."⟩]
    else structured
  examples.take 3

/-- `_extract_related_topics`: the bullet items captured by the regex scans
(external engine, parameter `items`), capped at 5. -/
def extractRelatedTopics (items : String → List String) (content : String) : List String :=
  (items content).take 5

/-- `len(content.split())`: the number of maximal nonempty whitespace-free
runs. -/
def wordCount (content : String) : Nat :=
  ((content.data.splitOnP Char.isWhitespace).filter (fun w => w ≠ [])).length

/-- The external text functions `_parse_explanation` depends on: the two
example scans, the related-topic scan, Python `round(wc / 200)`, and the
md5-of-canonical-JSON hash of the cache key. -/
structure TextFuns where
  exampleMatches1 : String → List (String × String)
  exampleMatches2 : String → List (String × String)
  relatedTopicItems : String → List String
  round200 : Nat → Nat
  md5json : String × String × Nat × String → String

/-- `_parse_explanation(content, student_level)`. -/
def parseExplanation (tf : TextFuns) (content : String) (student_level : Nat) :
    Explanation :=
  { content := content
    examples := extractExamples tf.exampleMatches1 tf.exampleMatches2 content
    related_topics := extractRelatedTopics tf.relatedTopicItems content
    difficulty := min 10 (max 1 student_level)
    estimated_read_time := max 1 (tf.round200 (wordCount content)) }

/-- Shared mutable state seen by `get_explanation` with a live cache: the
cached entries (newest first, first match wins — `setex` overwrites) and the
number of endpoint invocations so far. JSON serialization of a model dump
and parsing it back (`Explanation(**cached)`) round-trips, so cache values
are stored as `Explanation`s. -/
structure AIState where
  cache : List (String × Explanation)
  apiCalls : Nat

/-- Lookup in the live cache (redis `get` + `json.loads`; a stored model
dump is a nonempty dict, hence truthy). -/
def cacheLookup (key : String) : List (String × Explanation) → Option Explanation
  | [] => none
  | (k, v) :: rest => if k = key then some v else cacheLookup key rest

/-- `get_explanation(request, use_cache)` with `self.cache_enabled` as a
parameter: cache check, then generate via the endpoint (indexed by the
invocation counter), parse, write-through, return. -/
def getExplanation (tf : TextFuns) (endpoint : Nat → String)
    (req : ExplanationRequest) (use_cache cache_enabled : Bool)
    (st : AIState) : Explanation × AIState :=
  let key := generateCacheKey tf.md5json req
  match (if use_cache && cache_enabled then cacheLookup key st.cache else none) with
  | some cached => (cached, st)
  | none =>
    let content := endpoint st.apiCalls
    let explanation := parseExplanation tf content req.student_level
    let newCache := if use_cache && cache_enabled
      then (key, explanation) :: st.cache
      else st.cache
    (explanation, ⟨newCache, st.apiCalls + 1⟩)

/-- Concrete text functions for witnesses: no regex matches, identity
rounding, a constant hash. -/
def tfDemo : TextFuns :=
  ⟨fun _ => [], fun _ => [], fun _ => [], id, fun _ => "demo"⟩

/-- Concrete endpoint stub for witnesses. -/
def endpointDemo : Nat → String := fun _ => "Algebra is the study of symbols."

/-! ## Cache invalidation (cache_invalidation.invalidate_learning_plans)

`redis.keys(pattern)` matches keys against a glob pattern and
`redis.delete(*keys)` removes the matches; the net effect on the key set is
embedded as a filter. Glob matching follows redis `stringmatchlen` for the
`*`, `?` and backslash-escape constructs; character classes (`[...]`) are
not modelled — the service's patterns contain them only if a student
identifier does, which the scoping theorem's hypotheses exclude. -/

/-- Glob match of pattern `p` against string `s`: `*` matches any sequence,
`?` any single character, a backslash escapes the next pattern character
(a trailing backslash matches itself), anything else matches literally. -/
def globMatch : (p s : List Char) → Bool
  | [], s => s.isEmpty
  | c :: p, s =>
    if c = '*' then
      globMatch p s
        || (match s with
            | [] => false
            | _ :: s2 => globMatch (c :: p) s2)
    else
      match s with
      | [] => false
      | d :: s2 =>
        if c = '?' then globMatch p s2
        else if c = '\\' then
          match p with
          | [] => (c == d) && globMatch p s2
          | e :: p2 => (e == d) && globMatch p2 s2
        else (c == d) && globMatch p s2
termination_by p s => (s.length, p.length)

/-- Characters with no special glob meaning (colon excluded separately). -/
def plainGlobChar (c : Char) : Bool :=
  decide (c ≠ '*' ∧ c ≠ '?' ∧ c ≠ '\\' ∧ c ≠ '[')

/-- The pattern `f"learning_plan:{student_id}:*"` of
`invalidate_learning_plans`. -/
def learningPlanPattern (student_id : List Char) : List Char :=
  "learning_plan:".data ++ student_id ++ ":*".data

/-- Net effect of `invalidate_learning_plans(student_id)` on the set of
cache keys: every key matching the glob pattern is deleted, the rest
survive. -/
def invalidateLearningPlans (student_id : List Char) (store : List (List Char)) :
    List (List Char) :=
  store.filter (fun k => !globMatch (learningPlanPattern student_id) k)

/-! ## Test generation on a cache miss (test_generation_service.generate_test)

The Python-dynamic failures the flow runs into are embedded explicitly:
attribute lookup consults the class's method table, and binding a keyword
argument not among a function's parameters raises `TypeError`. -/

/-- A raised Python exception of the kinds relevant here. -/
inductive PyError where
  | attributeError (attr : String)
  | typeError (kw : String)
deriving DecidableEq

/-- The methods the `OpenAIClient` class defines (openai_client.py):
`__init__`, `create_completion`, `check_health`. -/
def openAIClientMethods : List String :=
  ["__init__", "create_completion", "check_health"]

/-- The parameters of `RedisClient.set(self, key, value, ttl=None)` that a
caller can pass by keyword. -/
def redisSetKeywordParams : List String := ["key", "value", "ttl"]

/-- Python attribute lookup on a class instance: `AttributeError` when the
class does not define the attribute. -/
def getattrMethod (methods : List String) (name : String) : Except PyError Unit :=
  if methods.contains name then .ok () else .error (.attributeError name)

/-- Binding the keyword arguments of a call against the callee's parameter
names: an unexpected keyword raises `TypeError`. -/
def bindKeywords (params kwargs : List String) : Except PyError Unit :=
  match kwargs.find? (fun kw => !params.contains kw) with
  | some kw => .error (.typeError kw)
  | none => .ok ()

/-- `_generate_questions_by_type`: its first step evaluates
`openai_client.chat_completion`, and the lookup raises (the class has no
such method), so the rest of the body — executed only on a successful
lookup — is unreachable and elided. -/
def generateQuestionsByType (question_type : String) (count : Nat) :
    Except PyError (List Unit) := do
  let _ ← getattrMethod openAIClientMethods "chat_completion"
  pure []

/-- The `for question_type, count in ...items(): if count > 0: ...` loop of
`_generate_questions`. -/
def generateQuestionsLoop : List (String × Nat) → Except PyError (List Unit)
  | [] => .ok []
  | (qt, cnt) :: rest =>
    if 0 < cnt then do
      let qs ← generateQuestionsByType qt cnt
      let more ← generateQuestionsLoop rest
      pure (qs ++ more)
    else generateQuestionsLoop rest

/-- `_generate_questions(request)`. -/
def generateQuestions (req : TestGenerationRequest) : Except PyError (List Unit) :=
  generateQuestionsLoop (distributeQuestions req.question_count req.question_types)

/-- `generate_test(request)` past a cache miss: generate the questions,
then write through with `redis_client.set(cache_key, ..., ex=self.cache_ttl)`
— `ex` is not a parameter of `RedisClient.set`. The successful
`GeneratedTest` construction is elided as `()` since both steps before it
raise. -/
def generateTestOnMiss (req : TestGenerationRequest) : Except PyError Unit := do
  let _ ← generateQuestions req
  let _ ← bindKeywords redisSetKeywordParams ["ex"]
  pure ()

end AITutor

namespace AITutor

theorem distributeQuestions_length (total : Nat) (cats : List String) :
    (distributeQuestions total cats).length = cats.length := by
  simp [distributeQuestions]

theorem distributeQuestions_map_snd (total : Nat) (cats : List String) :
    (distributeQuestions total cats).map Prod.snd = distValues total cats.length := by
  unfold distributeQuestions distValues
  apply List.ext_getElem
  · simp
  · intro i h1 h2
    simp [List.getElem_enum]

theorem distributeQuestions_map_fst (total : Nat) (cats : List String) :
    (distributeQuestions total cats).map Prod.fst = cats := by
  unfold distributeQuestions
  apply List.ext_getElem
  · simp
  · intro i h1 h2
    simp [List.getElem_enum]

theorem distValues_sum_aux (b r : Nat) :
    ∀ k, (((List.range k).map (fun i => b + if i < r then 1 else 0)).sum
      = k * b + min r k) := by
  intro k
  induction k with
  | zero => simp
  | succ k ih =>
    rw [List.range_succ, List.map_append, List.sum_append, ih]
    have hsm : (k + 1) * b = k * b + b := Nat.succ_mul k b
    by_cases hk : k < r
    · simp only [List.map_cons, List.map_nil, if_pos hk]
      simp only [List.sum_cons, List.sum_nil]
      omega
    · simp only [List.map_cons, List.map_nil, if_neg hk]
      simp only [List.sum_cons, List.sum_nil]
      omega

theorem distValues_sum (total n : Nat) (hn : 1 ≤ n) :
    (distValues total n).sum = total := by
  unfold distValues
  rw [distValues_sum_aux]
  have hmod : total % n < n := Nat.mod_lt _ hn
  have hdm : n * (total / n) + total % n = total := Nat.div_add_mod total n
  omega

theorem distValues_mem (total n x : Nat) (hx : x ∈ distValues total n) :
    x = total / n ∨ x = total / n + 1 := by
  unfold distValues at hx
  rcases List.mem_map.mp hx with ⟨i, _, rfl⟩
  by_cases h : i < total % n <;> simp [h]

/-- C1. `_distribute_questions(total, categories)` with `total ∈ [1,50]` and a
non-empty, duplicate-free ordered category list of size 1–3 returns a mapping
(ordered association list) whose keys are the input categories in order, whose
values sum to `total`, whose values pairwise differ by at most 1, and in which
the category at index `i` receives `base + 1` (with `base = total / len` and
`remainder = total % len`) exactly when `i < remainder`. -/
theorem distributeQuestions_spec (total : Nat) (cats : List String)
    (h1 : 1 ≤ total) (h2 : total ≤ 50)
    (h3 : 1 ≤ cats.length) (h4 : cats.length ≤ 3) (h5 : cats.Nodup) :
    ((distributeQuestions total cats).map Prod.snd).sum = total
    ∧ (∀ x ∈ (distributeQuestions total cats).map Prod.snd,
        ∀ y ∈ (distributeQuestions total cats).map Prod.snd, x ≤ y + 1)
    ∧ (distributeQuestions total cats).map Prod.fst = cats
    ∧ (∀ i, ∀ h : i < (distributeQuestions total cats).length,
        (((distributeQuestions total cats).get ⟨i, h⟩).2 = total / cats.length + 1
          ↔ i < total % cats.length)) := by
  refine ⟨?_, ?_, distributeQuestions_map_fst total cats, ?_⟩
  · rw [distributeQuestions_map_snd, distValues_sum total cats.length h3]
  · intro x hx y hy
    rw [distributeQuestions_map_snd] at hx hy
    rcases distValues_mem total cats.length x hx with rfl | rfl <;>
      rcases distValues_mem total cats.length y hy with rfl | rfl <;> omega
  · intro i h
    have hv : ((distributeQuestions total cats).get ⟨i, h⟩).2
        = total / cats.length + if i < total % cats.length then 1 else 0 := by
      simp only [distributeQuestions, List.get_eq_getElem, List.getElem_map,
        List.getElem_enum]
    rw [hv]
    by_cases hc : i < total % cats.length <;> simp [hc]

/-- Witness for C1 at the spec's own example: `distribute(10, [A,B,C])`. -/
theorem distributeQuestions_spec_witness :
    (1 ≤ 10 ∧ (10 : Nat) ≤ 50
      ∧ 1 ≤ (["A", "B", "C"] : List String).length
      ∧ (["A", "B", "C"] : List String).length ≤ 3
      ∧ (["A", "B", "C"] : List String).Nodup)
    ∧ (((distributeQuestions 10 ["A", "B", "C"]).map Prod.snd).sum = 10
      ∧ (∀ x ∈ (distributeQuestions 10 ["A", "B", "C"]).map Prod.snd,
          ∀ y ∈ (distributeQuestions 10 ["A", "B", "C"]).map Prod.snd, x ≤ y + 1)
      ∧ (distributeQuestions 10 ["A", "B", "C"]).map Prod.fst = ["A", "B", "C"]
      ∧ (∀ i, ∀ h : i < (distributeQuestions 10 ["A", "B", "C"]).length,
          (((distributeQuestions 10 ["A", "B", "C"]).get ⟨i, h⟩).2 = 10 / 3 + 1
            ↔ i < 10 % 3)))
    ∧ distributeQuestions 10 ["A", "B", "C"] = [("A", 4), ("B", 3), ("C", 3)] :=
  ⟨⟨by decide, by decide, by decide, by decide, by decide⟩,
    distributeQuestions_spec 10 ["A", "B", "C"]
      (by decide) (by decide) (by decide) (by decide) (by decide),
    by decide⟩

/-- C2 counterexample: the test-key domain violates the claim. Two
`TestGenerationRequest`s whose string fields are equal after case-folding
and trimming (and whose numeric and list fields are equal) get different
cache keys, because `_get_cache_key` uses the raw `subject`. -/
theorem getCacheKey_case_counterexample :
    pyStrip (pyLower "math") = pyStrip (pyLower "Math")
    ∧ getCacheKey ⟨"math", ["algebra"], 1, 1, ["multiple_choice"], none⟩
      ≠ getCacheKey ⟨"Math", ["algebra"], 1, 1, ["multiple_choice"], none⟩ := by
  constructor
  · rfl
  · decide

theorem generateCacheKey_congr (md5json : String × String × Nat × String → String)
    (r1 r2 : ExplanationRequest)
    (h : normalizedKeyData r1 = normalizedKeyData r2) :
    generateCacheKey md5json r1 = generateCacheKey md5json r2 := by
  unfold generateCacheKey
  rw [h]

/-- C2 (amended): for the explanation key domain the claim holds — any two
requests with equal normalized field tuples derive the same cache key (for
the fixed deterministic hash function). The test key domain uses raw
fields, so case or whitespace differences can produce distinct keys. -/
theorem generateCacheKey_normalized
    (md5json : String × String × Nat × String → String)
    (r1 r2 : ExplanationRequest)
    (h : normalizedKeyData r1 = normalizedKeyData r2) :
    generateCacheKey md5json r1 = generateCacheKey md5json r2 := by
  unfold generateCacheKey
  rw [h]

/-- Witness for C2 (amended) at the spec's example: topic `"Algebra "` with
subject `"math"` versus topic `"algebra"` with subject `"Math"`. -/
theorem generateCacheKey_normalized_witness :
    normalizedKeyData ⟨"Algebra ", "math", 5, none⟩
      = normalizedKeyData ⟨"algebra", "Math", 5, none⟩
    ∧ generateCacheKey (fun _ => "d41d8cd9") ⟨"Algebra ", "math", 5, none⟩
      = generateCacheKey (fun _ => "d41d8cd9") ⟨"algebra", "Math", 5, none⟩ :=
  ⟨by decide, generateCacheKey_normalized (fun _ => "d41d8cd9") _ _ (by decide)⟩

theorem createCompletionAux_last (endpoint : Nat → ApiOutcome) (maxR d attempt : Nat)
    (hcond : ¬ attempt < maxR - 1)
    (hr : retryableOutcome (endpoint attempt) = true) (remaining : Nat) :
    createCompletionAux endpoint maxR d attempt (remaining + 1)
      = ⟨.error (classifyFailure (endpoint attempt)), 1, []⟩ := by
  cases hE : endpoint attempt with
  | success c => rw [hE] at hr; simp [retryableOutcome] at hr
  | rateLimited => simp [createCompletionAux, hE, hcond, classifyFailure]
  | connectionFailed => simp [createCompletionAux, hE, hcond, classifyFailure]
  | apiFailure status =>
    have hc : ¬ (attempt < maxR - 1 ∧ 500 ≤ status) := fun hx => hcond hx.1
    simp [createCompletionAux, hE, hc, classifyFailure]
  | otherOpenAIFailure => rw [hE] at hr; simp [retryableOutcome] at hr
  | unexpectedFailure => rw [hE] at hr; simp [retryableOutcome] at hr

theorem createCompletionAux_step (endpoint : Nat → ApiOutcome) (maxR d attempt remaining : Nat)
    (hcond : attempt < maxR - 1)
    (hr : retryableOutcome (endpoint attempt) = true) :
    createCompletionAux endpoint maxR d attempt (remaining + 1)
      = ⟨(createCompletionAux endpoint maxR d (attempt + 1) remaining).outcome,
          (createCompletionAux endpoint maxR d (attempt + 1) remaining).attempts + 1,
          (d * 2 ^ attempt)
            :: (createCompletionAux endpoint maxR d (attempt + 1) remaining).sleeps⟩ := by
  cases hE : endpoint attempt with
  | success c => rw [hE] at hr; simp [retryableOutcome] at hr
  | rateLimited => simp [createCompletionAux, hE, hcond]
  | connectionFailed => simp [createCompletionAux, hE, hcond]
  | apiFailure status =>
    rw [hE] at hr
    have hs : 500 ≤ status := by simpa [retryableOutcome] using hr
    have hc : attempt < maxR - 1 ∧ 500 ≤ status := ⟨hcond, hs⟩
    simp [createCompletionAux, hE, hc]
  | otherOpenAIFailure => rw [hE] at hr; simp [retryableOutcome] at hr
  | unexpectedFailure => rw [hE] at hr; simp [retryableOutcome] at hr

theorem createCompletionAux_exhaust (endpoint : Nat → ApiOutcome) (maxR d : Nat)
    (h : ∀ i, retryableOutcome (endpoint i) = true) :
    ∀ remaining attempt, attempt + remaining = maxR → 1 ≤ remaining →
      createCompletionAux endpoint maxR d attempt remaining
        = ⟨.error (classifyFailure (endpoint (maxR - 1))), remaining,
            (List.range' attempt (remaining - 1)).map (fun n => d * 2 ^ n)⟩ := by
  intro remaining
  induction remaining with
  | zero => intro attempt _ h2; exact absurd h2 (by omega)
  | succ r ih =>
    intro attempt hsum _
    match r, ih with
    | 0, _ =>
      have hA : attempt = maxR - 1 := by omega
      rw [createCompletionAux_last endpoint maxR d attempt (by omega) (h attempt) 0, hA]
      simp
    | r' + 1, ih =>
      rw [createCompletionAux_step endpoint maxR d attempt (r' + 1) (by omega) (h attempt),
        ih (attempt + 1) (by omega) (by omega)]
      simp [List.range'_succ]

/-- C3 counterexample: with `max_retries = 3`, `retry_delay = 1` and an
endpoint that is rate-limited on every call, the code makes exactly 3
attempts but sleeps only twice, 1s then 2s — there is no 4s backoff,
because no sleep happens after the final failed attempt. -/
theorem createCompletion_backoff_counterexample :
    (createCompletion (fun _ => .rateLimited) 3 1).attempts = 3
    ∧ (createCompletion (fun _ => .rateLimited) 3 1).sleeps = [1, 2]
    ∧ (createCompletion (fun _ => .rateLimited) 3 1).sleeps ≠ [1, 2, 4] := by
  refine ⟨?_, ?_, ?_⟩ <;> decide

/-- C3 (amended): the delay slept after failed attempt `n` (0-indexed,
`n < maxAttempts - 1`) equals `baseDelay * 2 ^ n`; when every attempt fails
with a retryable error, there are exactly `maxAttempts` invocation attempts
and the sleep list is `[baseDelay * 2 ^ 0, …, baseDelay * 2 ^ (maxAttempts - 2)]`
— in particular `maxAttempts = 3, baseDelay = 1` gives delays of 1s and 2s
(no sleep after the final attempt). -/
theorem createCompletion_backoff (endpoint : Nat → ApiOutcome) (maxR d : Nat)
    (h1 : 1 ≤ maxR) (h2 : ∀ i, retryableOutcome (endpoint i) = true) :
    (createCompletion endpoint maxR d).attempts = maxR
    ∧ (createCompletion endpoint maxR d).sleeps
        = (List.range (maxR - 1)).map (fun n => d * 2 ^ n) := by
  unfold createCompletion
  rw [createCompletionAux_exhaust endpoint maxR d h2 maxR 0 (by omega) h1]
  exact ⟨rfl, by rw [List.range_eq_range']⟩

/-- Witness for C3 (amended): the always-rate-limited endpoint with
`maxAttempts = 3`, `baseDelay = 1`. -/
theorem createCompletion_backoff_witness :
    ((1 : Nat) ≤ 3
      ∧ ∀ i : Nat, retryableOutcome ((fun _ => ApiOutcome.rateLimited) i) = true)
    ∧ (createCompletion (fun _ => .rateLimited) 3 1).attempts = 3
    ∧ (createCompletion (fun _ => .rateLimited) 3 1).sleeps = [1, 2] := by
  have h := createCompletion_backoff (fun _ => .rateLimited) 3 1 (by decide) (fun _ => rfl)
  exact ⟨⟨by decide, fun _ => rfl⟩, h.1, by rw [h.2]; decide⟩

/-- C4 counterexample: with every attempt rate-limited, the error finally
raised is the original classified `RateLimitError` (the bare `raise` on the
last attempt re-raises it), not the distinct retries-exhausted error the
claim requires. -/
theorem createCompletion_exhaustion_counterexample :
    (createCompletion (fun _ => .rateLimited) 3 1).outcome
      = .error .rateLimitError
    ∧ (createCompletion (fun _ => .rateLimited) 3 1).outcome
      ≠ .error .retriesExhausted := by
  constructor <;> decide

/-- C4 (amended): when all `maxAttempts ≥ 1` attempts fail with a retryable
failure, `create_completion` re-raises the classified error of the final
attempt — which is never the distinct retries-exhausted error; the distinct
`OpenAIError("Failed to create completion after all retries")` is reachable
only when `maxAttempts = 0` (the loop body never runs). -/
theorem createCompletion_exhaustion (endpoint : Nat → ApiOutcome) (maxR d : Nat)
    (h1 : 1 ≤ maxR) (h2 : ∀ i, retryableOutcome (endpoint i) = true) :
    ((createCompletion endpoint maxR d).outcome
        = .error (classifyFailure (endpoint (maxR - 1)))
      ∧ classifyFailure (endpoint (maxR - 1)) ≠ .retriesExhausted)
    ∧ (createCompletion endpoint 0 d).outcome = .error .retriesExhausted := by
  refine ⟨⟨?_, ?_⟩, rfl⟩
  · unfold createCompletion
    rw [createCompletionAux_exhaust endpoint maxR d h2 maxR 0 (by omega) h1]
  · have hr := h2 (maxR - 1)
    cases hE : endpoint (maxR - 1) <;> rw [hE] at hr <;>
      simp_all [retryableOutcome, classifyFailure]

/-- Witness for C4 (amended): the always-connection-failing endpoint with
3 attempts re-raises the classified connection error. -/
theorem createCompletion_exhaustion_witness :
    ((1 : Nat) ≤ 3
      ∧ ∀ i : Nat, retryableOutcome ((fun _ => ApiOutcome.connectionFailed) i) = true)
    ∧ (createCompletion (fun _ => .connectionFailed) 3 1).outcome
        = .error .apiConnectionError
    ∧ CompletionError.apiConnectionError ≠ .retriesExhausted := by
  have h := createCompletion_exhaustion (fun _ => .connectionFailed) 3 1 (by decide) (fun _ => rfl)
  exact ⟨⟨by decide, fun _ => rfl⟩, h.1.1, h.1.2⟩

/-- C5. A client-side (4xx) API error on the first attempt is not retried:
exactly one invocation attempt, no sleep, and the classified `APIError` is
propagated immediately. -/
theorem createCompletion_clientError (endpoint : Nat → ApiOutcome)
    (maxR d status : Nat) (h1 : 1 ≤ maxR)
    (hE : endpoint 0 = .apiFailure status) (hs : status < 500) :
    createCompletion endpoint maxR d = ⟨.error (.apiError status), 1, []⟩ := by
  obtain ⟨r, rfl⟩ : ∃ r, maxR = r + 1 := ⟨maxR - 1, by omega⟩
  have hc : ¬ (0 < (r + 1) - 1 ∧ 500 ≤ status) := by omega
  unfold createCompletion
  simp only [createCompletionAux, hE, if_neg hc]

/-- Witness for C5: a 400-status API error with `maxAttempts = 3`. -/
theorem createCompletion_clientError_witness :
    ((1 : Nat) ≤ 3
      ∧ (fun _ => ApiOutcome.apiFailure 400) 0 = ApiOutcome.apiFailure 400
      ∧ (400 : Nat) < 500)
    ∧ createCompletion (fun _ => .apiFailure 400) 3 1
        = ⟨.error (.apiError 400), 1, []⟩ :=
  ⟨⟨by decide, rfl, by decide⟩,
    createCompletion_clientError (fun _ => .apiFailure 400) 3 1 400 (by decide) rfl (by decide)⟩

/-- C6. When the underlying store is unreachable (`self.redis is None`) or
every raw operation raises, `RedisClient.get` returns `None` and `set` and
`delete` return `False`; none of the wrappers propagates the failure (their
embedded return types are total `Option`/`Bool`, mirroring the
catch-all `except` blocks in the source). -/
theorem redisClient_best_effort {α : Type} (c : RedisClientState)
    (jsonLoads : String → Option α) (jsonDumps : α → String)
    (key : String) (value : α) (ttl : Option Nat)
    (h : c.redis = none ∨ ∃ conn, c.redis = some conn ∧ conn.allRaise) :
    c.get jsonLoads key = none
    ∧ c.set jsonDumps key value ttl = false
    ∧ c.del key = false := by
  rcases h with hnone | ⟨conn, hc, hg, hs, hd⟩
  · simp [RedisClientState.get, RedisClientState.set, RedisClientState.del, hnone]
  · simp [RedisClientState.get, RedisClientState.set, RedisClientState.del, hc,
      hg key, hs key (ttl.getD c.cache_ttl) (jsonDumps value), hd key]

/-- Witness for C6: a client whose connection attempt failed. -/
theorem redisClient_best_effort_witness :
    ((⟨none, 3600⟩ : RedisClientState).redis = none
      ∨ ∃ conn, (⟨none, 3600⟩ : RedisClientState).redis = some conn ∧ conn.allRaise)
    ∧ (⟨none, 3600⟩ : RedisClientState).get (fun _ => (none : Option Nat)) "k" = none
    ∧ (⟨none, 3600⟩ : RedisClientState).set (fun _ : Nat => "0") "k" 7 (some 60) = false
    ∧ (⟨none, 3600⟩ : RedisClientState).del "k" = false := by
  have h := redisClient_best_effort (α := Nat) ⟨none, 3600⟩ (fun _ => none)
    (fun _ => "0") "k" 7 (some 60) (Or.inl rfl)
  exact ⟨Or.inl rfl, h.1, h.2.1, h.2.2⟩

/-- C7. Against a live, initially-empty cache, two `get_explanation` calls
whose requests have equal normalized fields return the same structured
result, and the endpoint is invoked exactly once across the two calls (the
second call performs zero invocations). -/
theorem getExplanation_cache_idempotent (tf : TextFuns) (endpoint : Nat → String)
    (r1 r2 : ExplanationRequest)
    (h : normalizedKeyData r1 = normalizedKeyData r2) :
    (getExplanation tf endpoint r1 true true ⟨[], 0⟩).1
      = (getExplanation tf endpoint r2 true true
          (getExplanation tf endpoint r1 true true ⟨[], 0⟩).2).1
    ∧ (getExplanation tf endpoint r1 true true ⟨[], 0⟩).2.apiCalls = 1
    ∧ (getExplanation tf endpoint r2 true true
        (getExplanation tf endpoint r1 true true ⟨[], 0⟩).2).2.apiCalls = 1 := by
  have hkey : generateCacheKey tf.md5json r2 = generateCacheKey tf.md5json r1 :=
    (generateCacheKey_congr tf.md5json r1 r2 h).symm
  have h1 : getExplanation tf endpoint r1 true true ⟨[], 0⟩
      = (parseExplanation tf (endpoint 0) r1.student_level,
          ⟨[(generateCacheKey tf.md5json r1,
              parseExplanation tf (endpoint 0) r1.student_level)], 1⟩) := rfl
  have h2 : getExplanation tf endpoint r2 true true
        ⟨[(generateCacheKey tf.md5json r1,
            parseExplanation tf (endpoint 0) r1.student_level)], 1⟩
      = (parseExplanation tf (endpoint 0) r1.student_level,
          ⟨[(generateCacheKey tf.md5json r1,
              parseExplanation tf (endpoint 0) r1.student_level)], 1⟩) := by
    simp [getExplanation, hkey, cacheLookup]
  rw [h1, h2]
  exact ⟨rfl, rfl, rfl⟩

/-- Witness for C7: the two case/whitespace variants of the same request
against the demo endpoint. -/
theorem getExplanation_cache_idempotent_witness :
    normalizedKeyData ⟨"Algebra ", "math", 5, none⟩
      = normalizedKeyData ⟨"algebra", "Math", 5, none⟩
    ∧ ((getExplanation tfDemo endpointDemo ⟨"Algebra ", "math", 5, none⟩ true true ⟨[], 0⟩).1
        = (getExplanation tfDemo endpointDemo ⟨"algebra", "Math", 5, none⟩ true true
            (getExplanation tfDemo endpointDemo ⟨"Algebra ", "math", 5, none⟩
              true true ⟨[], 0⟩).2).1
      ∧ (getExplanation tfDemo endpointDemo ⟨"Algebra ", "math", 5, none⟩
          true true ⟨[], 0⟩).2.apiCalls = 1
      ∧ (getExplanation tfDemo endpointDemo ⟨"algebra", "Math", 5, none⟩ true true
          (getExplanation tfDemo endpointDemo ⟨"Algebra ", "math", 5, none⟩
            true true ⟨[], 0⟩).2).2.apiCalls = 1) :=
  ⟨by decide, getExplanation_cache_idempotent tfDemo endpointDemo _ _ (by decide)⟩

/-- C8. `_extract_examples`: when neither structured pattern matches but the
word "example" occurs case-insensitively, the result is exactly one generic
placeholder example; for every input the result has at most 3 entries, and
when structured matches exist the result is the first ≤ 3 of them in
discovery order. -/
theorem extractExamples_fallback_cap (m1 m2 : String → List (String × String))
    (content : String) :
    (m1 content = [] → m2 content = [] → containsWordExample content = true →
      extractExamples m1 m2 content
        = [⟨"Example", "See explanation above for examples."⟩])
    ∧ (extractExamples m1 m2 content).length ≤ 3
    ∧ (m1 content ++ m2 content ≠ [] →
        extractExamples m1 m2 content
          = ((m1 content ++ m2 content).map
              (fun p => ⟨pyStrip p.1, pyStrip p.2⟩)).take 3) := by
  refine ⟨?_, ?_, ?_⟩
  · intro e1 e2 hw
    simp [extractExamples, e1, e2, hw]
  · unfold extractExamples
    by_cases hc : (((m1 content ++ m2 content).map
        (fun p => (⟨pyStrip p.1, pyStrip p.2⟩ : Example))).isEmpty
          && containsWordExample content) = true
    · simp [hc]
    · simp only [Bool.not_eq_true] at hc
      simp [hc, List.length_take]
  · intro hne
    rcases hx : m1 content ++ m2 content with _ | ⟨p, rest⟩
    · exact absurd hx hne
    · simp [extractExamples, hx]

/-- Witness for C8: plain prose containing the word "example" with no
structured matches yields exactly the placeholder. -/
theorem extractExamples_fallback_cap_witness :
    ((fun _ => ([] : List (String × String))) "Consider an example." = []
      ∧ containsWordExample "Consider an example." = true)
    ∧ extractExamples (fun _ => []) (fun _ => []) "Consider an example."
        = [⟨"Example", "See explanation above for examples."⟩]
    ∧ (extractExamples (fun _ => []) (fun _ => []) "Consider an example.").length ≤ 3 := by
  have h := extractExamples_fallback_cap (fun _ => []) (fun _ => []) "Consider an example."
  exact ⟨⟨rfl, by decide⟩, h.1 rfl rfl (by decide), h.2.1⟩

theorem plainGlobChar_spec (c : Char) (h : plainGlobChar c = true) :
    c ≠ '*' ∧ c ≠ '?' ∧ c ≠ '\\' ∧ c ≠ '[' := by
  simpa [plainGlobChar] using h

theorem globMatch_nil (s : List Char) : globMatch [] s = s.isEmpty := by
  conv_lhs => rw [globMatch.eq_def]

theorem globMatch_lit (c d : Char) (p s : List Char)
    (h1 : c ≠ '*') (h2 : c ≠ '?') (h3 : c ≠ '\\') :
    globMatch (c :: p) (d :: s) = ((c == d) && globMatch p s) := by
  conv_lhs => rw [globMatch.eq_def]
  simp [h1, h2, h3]

theorem globMatch_lit_nil (c : Char) (p : List Char) (h1 : c ≠ '*') :
    globMatch (c :: p) [] = false := by
  conv_lhs => rw [globMatch.eq_def]
  simp [h1]

theorem globMatch_star (p s : List Char) :
    globMatch ('*' :: p) s
      = (globMatch p s
          || (match s with | [] => false | _ :: s2 => globMatch ('*' :: p) s2)) := by
  conv_lhs => rw [globMatch.eq_def]
  simp

theorem globMatch_star_all (s : List Char) : globMatch ['*'] s = true := by
  induction s with
  | nil => rw [globMatch_star]; simp [globMatch_nil]
  | cons c s ih => rw [globMatch_star]; simp [ih]

theorem globMatch_literal_prefix (p : List Char)
    (hp : ∀ c ∈ p, plainGlobChar c = true) :
    ∀ s, globMatch (p ++ ['*']) s = p.isPrefixOf s := by
  induction p with
  | nil => intro s; simpa [List.isPrefixOf] using globMatch_star_all s
  | cons c p ih =>
    intro s
    obtain ⟨h1, h2, h3, _⟩ := plainGlobChar_spec c (hp c (List.mem_cons_self c p))
    have hps : ∀ x ∈ p, plainGlobChar x = true :=
      fun x hx => hp x (List.mem_cons_of_mem c hx)
    cases s with
    | nil => simp [globMatch_lit_nil c (p ++ ['*']) h1, List.isPrefixOf]
    | cons d s2 =>
      simp [globMatch_lit c d (p ++ ['*']) s2 h1 h2 h3, List.isPrefixOf, ih hps s2]

theorem globMatch_literal_append (l : List Char)
    (hl : ∀ c ∈ l, plainGlobChar c = true) :
    ∀ p s, globMatch (l ++ p) (l ++ s) = globMatch p s := by
  induction l with
  | nil => intro p s; rfl
  | cons c l ih =>
    intro p s
    obtain ⟨h1, h2, h3, _⟩ := plainGlobChar_spec c (hl c (List.mem_cons_self c l))
    have hls : ∀ x ∈ l, plainGlobChar x = true :=
      fun x hx => hl x (List.mem_cons_of_mem c hx)
    simp [globMatch_lit c c (l ++ p) (l ++ s) h1 h2 h3, ih hls p s]

theorem isPrefixOf_append_same (l x y : List Char) :
    (l ++ x).isPrefixOf (l ++ y) = x.isPrefixOf y := by
  induction l with
  | nil => rfl
  | cons c l ih => simp [List.isPrefixOf, ih]

theorem isPrefixOf_colon_ne (a : List Char) :
    ∀ b rest, a ≠ b → (':' ∉ a) → (':' ∉ b) →
      (a ++ [':']).isPrefixOf (b ++ ':' :: rest) = false := by
  induction a with
  | nil =>
    intro b rest hab _ hb
    cases b with
    | nil => exact absurd rfl hab
    | cons d b2 =>
      have hd : (':' == d) = false := by
        simp only [beq_eq_false_iff_ne, ne_eq]
        intro h
        exact hb (h ▸ List.mem_cons_self d b2)
      simp [List.isPrefixOf, hd]
  | cons c a2 ih =>
    intro b rest hab ha hb
    have hc : c ≠ ':' := fun h => ha (h ▸ List.mem_cons_self c a2)
    cases b with
    | nil => simp [List.isPrefixOf, hc]
    | cons d b2 =>
      by_cases hcd : c = d
      · subst hcd
        have hab2 : a2 ≠ b2 := fun h => hab (h ▸ rfl)
        have ha2 : ':' ∉ a2 := fun h => ha (List.mem_cons_of_mem c h)
        have hb2 : ':' ∉ b2 := fun h => hb (List.mem_cons_of_mem c h)
        simp [List.isPrefixOf, ih b2 rest hab2 ha2 hb2]
      · have : (c == d) = false := by simp [hcd]
        simp [List.isPrefixOf, this]

theorem plainGlobChar_learning_plan :
    ∀ c ∈ "learning_plan:".data, plainGlobChar c = true := by decide

theorem learningPlanPattern_no_match (a b rest : List Char) (hab : a ≠ b)
    (ha : ∀ c ∈ a, plainGlobChar c = true ∧ c ≠ ':') (hb : ':' ∉ b) :
    globMatch (learningPlanPattern a)
      ("learning_plan:".data ++ b ++ ':' :: rest) = false := by
  have hpat : learningPlanPattern a
      = (("learning_plan:".data ++ a) ++ [':']) ++ ['*'] := by
    simp [learningPlanPattern]
  have hchars : ∀ c ∈ ("learning_plan:".data ++ a) ++ [':'], plainGlobChar c = true := by
    intro c hcm
    rcases List.mem_append.mp hcm with hcm2 | hcm2
    · rcases List.mem_append.mp hcm2 with hcm3 | hcm3
      · exact plainGlobChar_learning_plan c hcm3
      · exact (ha c hcm3).1
    · rcases List.mem_singleton.mp hcm2 with rfl; decide
  have hcolon_a : ':' ∉ a := fun h => (ha ':' h).2 rfl
  rw [hpat, globMatch_literal_prefix _ hchars]
  have e1 : ("learning_plan:".data ++ a) ++ [':']
      = "learning_plan:".data ++ (a ++ [':']) := by simp
  have e2 : "learning_plan:".data ++ b ++ ':' :: rest
      = "learning_plan:".data ++ (b ++ ':' :: rest) := by simp
  rw [e1, e2, isPrefixOf_append_same, isPrefixOf_colon_ne a b rest hab hcolon_a hb]

/-- C9 counterexample: the student identifier `"*"` is distinct from `"s"`,
yet invalidating for `"*"` deletes the key `learning_plan:s:x`, which lies
under the prefix `learning_plan:s:` — the raw identifier is spliced into a
glob pattern, so metacharacters (or colons) in identifiers break the
claimed isolation. -/
theorem invalidateLearningPlans_counterexample :
    (['*'] : List Char) ≠ ['s']
    ∧ ("learning_plan:s:".data).isPrefixOf "learning_plan:s:x".data = true
    ∧ invalidateLearningPlans ['*'] ["learning_plan:s:x".data] = [] := by
  have hsplit : learningPlanPattern ['*']
      = "learning_plan:".data ++ (['*'] ++ [':', '*']) := by
    simp [learningPlanPattern]
  have hkey : "learning_plan:s:x".data
      = "learning_plan:".data ++ (['s'] ++ [':', 'x']) := by decide
  have hm : globMatch (learningPlanPattern ['*']) "learning_plan:s:x".data = true := by
    rw [hsplit, hkey, globMatch_literal_append _ plainGlobChar_learning_plan]
    have h1 : globMatch [':', '*'] [':', 'x'] = true := by
      rw [globMatch_lit ':' ':' ['*'] ['x'] (by decide) (by decide) (by decide)]
      simp [globMatch_star_all]
    have h2 : globMatch ('*' :: [':', '*']) [':', 'x'] = true := by
      rw [globMatch_star]
      simp [h1]
    show globMatch ('*' :: [':', '*']) ['s', ':', 'x'] = true
    rw [globMatch_star]
    simp [h2]
  refine ⟨by decide, by decide, ?_⟩
  simp [invalidateLearningPlans, List.filter, hm]

/-- C9 (amended): for distinct student identifiers `A` and `B` where `A`
contains no glob metacharacter (`*`, `?`, `\`, `[`) and no colon, and `B`
contains no colon, `invalidate_learning_plans(A)` deletes no key under the
prefix `learning_plan:B:` — every such key still belongs to the store after
the invalidation. -/
theorem invalidateLearningPlans_scoped (a b rest : List Char)
    (store : List (List Char)) (hab : a ≠ b)
    (ha : ∀ c ∈ a, plainGlobChar c = true ∧ c ≠ ':') (hb : ':' ∉ b)
    (hmem : ("learning_plan:".data ++ b ++ ':' :: rest) ∈ store) :
    ("learning_plan:".data ++ b ++ ':' :: rest)
      ∈ invalidateLearningPlans a store := by
  unfold invalidateLearningPlans
  rw [List.mem_filter]
  refine ⟨hmem, ?_⟩
  rw [learningPlanPattern_no_match a b rest hab ha hb]
  rfl

/-- Witness for C9 (amended): invalidation for student `"anna"` keeps
student `"bob"`'s key `learning_plan:bob:plan`. -/
theorem invalidateLearningPlans_scoped_witness :
    (("anna".data : List Char) ≠ "bob".data
      ∧ (∀ c ∈ "anna".data, plainGlobChar c = true ∧ c ≠ ':')
      ∧ (':' ∉ "bob".data))
    ∧ ("learning_plan:".data ++ "bob".data ++ ':' :: "plan".data)
        ∈ invalidateLearningPlans "anna".data
            ["learning_plan:".data ++ "bob".data ++ ':' :: "plan".data] :=
  ⟨⟨by decide, by decide, by decide⟩,
    invalidateLearningPlans_scoped "anna".data "bob".data "plan".data
      ["learning_plan:".data ++ "bob".data ++ ':' :: "plan".data]
      (by decide) (by decide) (by decide) (List.mem_singleton.mpr rfl)⟩

theorem generateQuestionsLoop_head_pos (qt : String) (cnt : Nat)
    (rest : List (String × Nat)) (h : 0 < cnt) :
    generateQuestionsLoop ((qt, cnt) :: rest)
      = .error (.attributeError "chat_completion") := by
  have hcc : "chat_completion" ∉ openAIClientMethods := by decide
  simp [generateQuestionsLoop, h, generateQuestionsByType, getattrMethod, hcc, Bind.bind,
    Except.bind]

/-- C10. On a cache miss, `generate_test` raises and never returns a
`GeneratedTest`: the question-generation step looks up
`openai_client.chat_completion`, which `OpenAIClient` does not define, so an
`AttributeError` is raised before any endpoint call; independently, the
write-through step passes the keyword `ex` to `RedisClient.set` (whose
parameters are `key`, `value`, `ttl`), which raises `TypeError`. -/
theorem generateTest_raises_on_miss (req : TestGenerationRequest)
    (hq : 1 ≤ req.question_count) (hne : req.question_types ≠ []) :
    generateTestOnMiss req = .error (.attributeError "chat_completion")
    ∧ (∀ u, generateTestOnMiss req ≠ .ok u)
    ∧ bindKeywords redisSetKeywordParams ["ex"] = .error (.typeError "ex") := by
  rcases hqt : req.question_types with _ | ⟨t, ts⟩
  · exact absurd hqt hne
  have hd : distributeQuestions req.question_count (t :: ts)
      = (t, req.question_count / (t :: ts).length
          + if 0 < req.question_count % (t :: ts).length then 1 else 0)
        :: (ts.enumFrom 1).map (fun p => (p.2,
            req.question_count / (t :: ts).length
              + if p.1 < req.question_count % (t :: ts).length then 1 else 0)) := by
    simp [distributeQuestions, List.enum_cons]
  have hpos : 0 < req.question_count / (t :: ts).length
      + if 0 < req.question_count % (t :: ts).length then 1 else 0 := by
    rcases Nat.eq_zero_or_pos (req.question_count % (t :: ts).length) with hr0 | hr
    · have hdm := Nat.div_add_mod req.question_count (t :: ts).length
      rcases Nat.eq_zero_or_pos (req.question_count / (t :: ts).length) with hq0 | hqpos
      · rw [hq0, Nat.mul_zero, hr0] at hdm
        exact absurd hq (by omega)
      · rw [if_neg (by omega)]
        exact Nat.add_pos_left hqpos 0
    · rw [if_pos hr]
      exact Nat.succ_pos _
  have hmain : generateTestOnMiss req = .error (.attributeError "chat_completion") := by
    unfold generateTestOnMiss generateQuestions
    rw [hqt, hd, generateQuestionsLoop_head_pos _ _ _ hpos]
    rfl
  refine ⟨hmain, ?_, rfl⟩
  intro u hu
  rw [hmain] at hu
  exact Except.noConfusion hu

/-- Witness for C10: a validated request (10 multiple-choice questions). -/
theorem generateTest_raises_on_miss_witness :
    ((1 : Nat) ≤ 10 ∧ (["multiple_choice"] : List String) ≠ [])
    ∧ generateTestOnMiss ⟨"Math", ["algebra"], 5, 10, ["multiple_choice"], none⟩
        = .error (.attributeError "chat_completion")
    ∧ bindKeywords redisSetKeywordParams ["ex"] = .error (.typeError "ex") := by
  have h := generateTest_raises_on_miss
    ⟨"Math", ["algebra"], 5, 10, ["multiple_choice"], none⟩ (by decide) (by decide)
  exact ⟨⟨by decide, by decide⟩, h.1, h.2.2⟩

end AITutor
